import Mathlib

/-!
Verification of the levelcache two-tier read-through cache.

The definitions below are a shallow embedding of the Go sources of the
repository (package levelcache).  The implementation modelled is the most
evolved revision of the cache, the one embedded in src/cache_test.go
(lines 59-313), which is the revision the specification describes: it has
the versionInfo update queue, the distributed lock in Refresh, the Stop
signal, the configuration defaults, and the duplicate check in
RegisterLoader.  Where an older revision (src/cache.go, src/unnamed/part_000)
differs in a way a claim depends on, that difference is noted next to the
theorem settling the claim.

Modelling conventions:
- maps (go maps, the go-cache local tier, the redis store) are association
  lists over String keys; an update conses a fresh binding, lookup takes the
  first binding;
- go errors are Strings; a fallible call returns Except String;
- the redis client is modelled by the remote association list plus a
  remoteDown flag injecting communication failures; redis GET distinguishes
  key-absent (redis.Nil) from a communication failure;
- the serialization codec is external to the core (out of scope in the
  design), so it is a parameter: a pair of functions enc and dec;
- instrumentation needed by the observable-behaviour claims is threaded
  through the state: loaderCalls counts loader invocations, remoteReads
  records the keys of redis GET round trips in order, heldLocks records the
  distributed lock keys currently held.
-/

namespace LevelCache

/-- Source constant cacheKeyJoint from src/cache_test.go line 75. -/
def cacheKeyJoint : String := "#$#"

/-- Source function jointKey (src/cache_test.go lines 302-304):
strings.Join(a, cacheKeyJoint). -/
def jointKey (a : List String) : String :=
  String.intercalate cacheKeyJoint a

/-- Association-list lookup: the model of reading a go map or the stores. -/
def lookupA {β : Type} (m : List (String × β)) (k : String) : Option β :=
  (m.find? (fun p => p.1 == k)).map (fun p => p.2)

/-- Association-list update: the model of writing a go map or the stores. -/
def setA {β : Type} (m : List (String × β)) (k : String) (v : β) :
    List (String × β) :=
  (k, v) :: m

/-- Source type versionInfo (src/cache_test.go lines 105-108). -/
structure VersionInfo where
  dataKey : String
  versionNo : Int
deriving DecidableEq, Repr

/-- The serialization codec (jsoniter in the source; out of scope in the
design, hence a parameter): enc models MarshalToString under the toJson
wrapper, dec models UnmarshalFromString. -/
structure Codec (α : Type) where
  enc : α → String
  dec : String → Option α

/-- Source type DataLoader (src/model.go line 10). -/
def DataLoader (α : Type) : Type := String → Except String α

/-- The state of one levelCache instance together with the remote store it
talks to.  Fields localT, remote, version, updates, loaders, heldLocks model
p.c, the redis store, p.version, p.updates, p.loaders and the distributed
lock service; remoteDown injects remote communication failures; loaderCalls
and remoteReads are instrumentation recording loader invocations and redis
GET round trips. -/
structure CState (α : Type) where
  localT : List (String × String)
  remote : List (String × String)
  remoteDown : Bool
  version : List (String × Int)
  updates : List VersionInfo
  loaders : List (String × DataLoader α)
  heldLocks : List String
  loaderCalls : Nat
  remoteReads : List String

/-- Result of a redis GET: a value, the redis.Nil key-absent error, or a
communication failure. -/
inductive RGet where
  | found (content : String)
  | nilErr
  | fail (e : String)
deriving DecidableEq, Repr

/-- The outcome of rdb.Get for a key (the round trip itself is recorded by
the caller in remoteReads). -/
def rdbGetRaw {α : Type} (s : CState α) (k : String) : RGet :=
  if s.remoteDown then .fail ("redis: connection refused")
  else
    match lookupA s.remote k with
    | some c => .found c
    | none => .nilErr

/-- rdb.Set: the source discards the returned error, so a failed write is a
silent no-op. -/
def rdbSet {α : Type} (s : CState α) (k v : String) : CState α :=
  if s.remoteDown then s else { s with remote := setA s.remote k v }

/-- rdb.Incr: redis INCR treats an absent key as 0, stores the incremented
value as a base-10 string and returns it; a non-integer value or a
communication failure is an error. -/
def rdbIncr {α : Type} (s : CState α) (k : String) :
    Except String (Int × CState α) :=
  if s.remoteDown then .error ("redis: connection refused")
  else
    match lookupA s.remote k with
    | none => .ok (1, { s with remote := setA s.remote k (toString (1 : Int)) })
    | some c =>
      match c.toInt? with
      | some n => .ok (n + 1, { s with remote := setA s.remote k (toString (n + 1)) })
      | none => .error ("value is not an integer")

/-- Source function checkCacheUpdate (src/cache_test.go lines 238-259):
read the version key from redis (any error, redis.Nil included, returns
silently), parse it base 10, skip if no local shadow exists, and enqueue a
versionInfo when the remote counter differs from the shadow. -/
def checkCacheUpdate {α : Type} (s : CState α) (ns key : String) : CState α :=
  let k := jointKey [ns, key]
  let vk := jointKey [ns, key, "version"]
  let newUpdates :=
    match rdbGetRaw s vk with
    | .found latestContent =>
      match latestContent.toInt? with
      | some latest =>
        match lookupA s.version k with
        | some current =>
          if latest = current then s.updates
          else s.updates ++ [⟨k, latest⟩]
        | none => s.updates
      | none => s.updates
    | _ => s.updates
  { s with remoteReads := s.remoteReads ++ [vk], updates := newUpdates }

/-- The tail of the source function get from the loader lookup on
(src/cache_test.go lines 220-236): look the loader up, invoke it, copy the
result into obj, write redis then the local tier, and seed the shadow
version at 0 when absent.  The source reaches this code unconditionally
after the remote-tier read, whether or not the remote tier held a value. -/
def getLoaderPhase {α : Type} (cd : Codec α) (ns key k : String)
    (s2 : CState α) : Except String α × CState α :=
  match lookupA s2.loaders ns with
  | none => (.error ("data loader [" ++ ns ++ "] not found"), s2)
  | some loader =>
    let s3 := { s2 with loaderCalls := s2.loaderCalls + 1 }
    match loader key with
    | .error e => (.error e, s3)
    | .ok data =>
      let s4 := rdbSet s3 k (cd.enc data)
      let s5 := { s4 with localT := setA s4.localT k (cd.enc data) }
      match lookupA s5.version k with
      | some _ => (.ok data, s5)
      | none => (.ok data, { s5 with version := setA s5.version k 0 })

/-- Source function get (src/cache_test.go lines 198-237): local tier first
(a hit unmarshals and returns); else read redis under the joined key (a
communication failure propagates, redis.Nil leaves content empty); a
non-empty content unmarshals into obj and populates the local tier with its
re-encoding; then, in every non-error case, control continues into the
loader phase. -/
def get {α : Type} (cd : Codec α) (ns : String) (s : CState α) (key : String) :
    Except String α × CState α :=
  let k := jointKey [ns, key]
  match lookupA s.localT k with
  | some content =>
    match cd.dec content with
    | some v => (.ok v, s)
    | none => (.error ("unmarshal error"), s)
  | none =>
    let s1 := { s with remoteReads := s.remoteReads ++ [k] }
    match rdbGetRaw s k with
    | .fail e => (.error e, s1)
    | .nilErr => getLoaderPhase cd ns key k s1
    | .found content =>
      if content = "" then getLoaderPhase cd ns key k s1
      else
        match cd.dec content with
        | none => (.error ("unmarshal error"), s1)
        | some v =>
          getLoaderPhase cd ns key k
            { s1 with localT := setA s1.localT k (cd.enc v) }

/-- Source function Get (src/cache_test.go lines 193-196): the version
check, then the read path. -/
def Get {α : Type} (cd : Codec α) (ns : String) (s : CState α) (key : String) :
    Except String α × CState α :=
  get cd ns (checkCacheUpdate s ns key) key

/-- Source function parseAndDo (src/cache_test.go lines 261-269), the body
of the invalidation worker: read the data key from redis (any error,
redis.Nil included, propagates and nothing is changed), then set the shadow
version to the versionNo carried by the notification and overwrite the
local tier entry with the remote content. -/
def parseAndDo {α : Type} (s : CState α) (info : VersionInfo) :
    Except String Unit × CState α :=
  let s1 := { s with remoteReads := s.remoteReads ++ [info.dataKey] }
  match rdbGetRaw s info.dataKey with
  | .fail e => (.error e, s1)
  | .nilErr => (.error ("redis: nil"), s1)
  | .found content =>
    let s2 := { s1 with version := setA s1.version info.dataKey info.versionNo }
    (.ok (), { s2 with localT := setA s2.localT info.dataKey content })

/-- Source function Refresh (src/cache_test.go lines 271-300), modelled at
the iteration of the retry loop in which the distributed lock is obtained
(obtaining adds the lock key to heldLocks): invoke the loader; on loader
error return at once, the lock still held; on success write the local tier
and redis, INCR the version key join of "version" and k, on INCR success
set the shadow version to the returned counter, and release the lock. -/
def Refresh {α : Type} (cd : Codec α) (s : CState α) (ns key : String) :
    CState α :=
  match lookupA s.loaders ns with
  | none => s
  | some loader =>
    let k := jointKey [ns, key]
    let lockKey := jointKey ["lock", k]
    let vk := jointKey ["version", k]
    let s1 := { s with heldLocks := s.heldLocks ++ [lockKey],
                       loaderCalls := s.loaderCalls + 1 }
    match loader key with
    | .error _ => s1
    | .ok data =>
      let s2 := { s1 with localT := setA s1.localT k (cd.enc data) }
      let s3 := rdbSet s2 k (cd.enc data)
      let s4 :=
        match rdbIncr s3 vk with
        | .ok (recNo, sx) => { sx with version := setA sx.version k recNo }
        | .error _ => s3
      { s4 with heldLocks := s4.heldLocks.erase lockKey }

/-- Source function RegisterLoader (src/cache_test.go lines 158-164): fail
when the namespace is already bound, leaving the state untouched, else bind
it.  The older revision in src/cache.go lines 66-68 has no duplicate check
and silently overwrites. -/
def RegisterLoader {α : Type} (s : CState α) (ns : String)
    (loader : DataLoader α) : Except String Unit × CState α :=
  match lookupA s.loaders ns with
  | some _ => (.error ("data loader [" ++ ns ++ "] existed"), s)
  | none => (.ok (), { s with loaders := setA s.loaders ns loader })

/-! Concrete material from src/unnamed/part_001 (the Dish model and the
GetDish loader), used by the witnesses and counterexamples.  The price
field is 40 or 100 in the source, both exact, and nothing in the cache
computes with it, so it is carried as an Int. -/

/-- Source type Dish (src/unnamed/part_001 lines 9-15). -/
structure Dish where
  id : Int
  name : String
  taste : Int
  price : Int
  comment : String
deriving DecidableEq, Repr

/-- Dish value returned by GetDish for key 1. -/
def dish1 : Dish := ⟨1, "GongBaoJiDing", 1, 40, "awesome"⟩

/-- Dish value returned by GetDish for key 2. -/
def dish2 : Dish := ⟨2, "GongBaoJiDing", 0, 100, "excellent"⟩

/-- Source function GetDish (src/unnamed/part_001 lines 25-46). -/
def GetDish : DataLoader Dish := fun key =>
  if key = "1" then .ok dish1
  else if key = "2" then .ok dish2
  else .error ("dish [" ++ key ++ "] not found")

/-- A concrete injective rendering of a Dish, standing in for the external
jsoniter codec in witnesses. -/
def dishEnc (d : Dish) : String :=
  "Dish(" ++ toString d.id ++ "|" ++ d.name ++ "|" ++ toString d.taste ++
    "|" ++ toString d.price ++ "|" ++ d.comment ++ ")"

/-- The partial inverse of dishEnc on the two dishes the loader produces. -/
def dishDec (s : String) : Option Dish :=
  if s = dishEnc dish1 then some dish1
  else if s = dishEnc dish2 then some dish2
  else none

/-- The concrete witness codec for Dish. -/
def dishCodec : Codec Dish := ⟨dishEnc, dishDec⟩

/-- A fresh cache state wired to the given loader registry: both tiers
empty, no shadow versions, empty queue, remote reachable, no locks held,
instrumentation zeroed. -/
def initState {α : Type} (ls : List (String × DataLoader α)) : CState α :=
  { localT := [], remote := [], remoteDown := false, version := [],
    updates := [], loaders := ls, heldLocks := [], loaderCalls := 0,
    remoteReads := [] }

/-- The fresh state of the tests: the dish namespace bound to GetDish. -/
def dishState : CState Dish := initState [("dish", GetDish)]

/-- The state after a first successful Get of dish 1 on a fresh cache. -/
def loadedState : CState Dish := (Get dishCodec "dish" dishState "1").2

/-- A state whose remote tier already holds the serialized dish 1 under the
joined value key while the local tier is empty. -/
def remoteHitState : CState Dish :=
  { dishState with remote := [(jointKey ["dish", "1"], dishEnc dish1)] }

/-- A state whose remote tier holds some serialized content under the
joined value key of dish 1, as the invalidation worker would find it. -/
def workerState : CState Dish :=
  { dishState with remote := [(jointKey ["dish", "1"], "remote content")] }

/-- The value of a remote version counter as INCR sees it: an absent key
counts 0, a stored string must parse base 10. -/
def counterAt (m : List (String × String)) (k : String) : Option Int :=
  match lookupA m k with
  | none => some 0
  | some c => c.toInt?

/-! Construction model: the CacheConfig defaults and New, from
src/cache_test.go lines 74-80 and 94-156.  Durations are Ints in
nanoseconds. -/

/-- Source type CacheConfig (src/cache_test.go lines 94-103). -/
structure CacheConfig where
  redisAddr : String
  redisDb : Int
  redisPassword : String
  redisPoolSize : Int
  cacheExpiration : Int
  cleanupInterval : Int
  lockInterval : Int
  maxUpdateBuffer : Int
deriving DecidableEq, Repr

/-- time.Minute in nanoseconds. -/
def timeMinute : Int := 60 * 1000000000

/-- Source constant defaultCacheInvalidInterval: 1440 minutes. -/
def defaultCacheInvalidInterval : Int := 1440 * timeMinute

/-- Source constant defaultCleanupInterval: 1441 minutes. -/
def defaultCleanupInterval : Int := 1441 * timeMinute

/-- Source constant defaultMaxUpdateBuffer. -/
def defaultMaxUpdateBuffer : Int := 100

/-- Source constant defaultUpdateLockInterval: one minute. -/
def defaultUpdateLockInterval : Int := timeMinute

/-- The default-filling steps of checkAndLoadDefault.  The source performs
them one field at a time; each test reads a field no earlier step wrote, so
the simultaneous form below is the same function. -/
def loadDefaults (p : CacheConfig) : CacheConfig :=
  { p with
    redisPoolSize := if p.redisPoolSize = 0 then 40 else p.redisPoolSize,
    cacheExpiration := if p.cacheExpiration = 0 then
      defaultCacheInvalidInterval else p.cacheExpiration,
    cleanupInterval := if p.cleanupInterval = 0 then
      defaultCleanupInterval else p.cleanupInterval,
    lockInterval := if p.lockInterval = 0 then
      defaultUpdateLockInterval else p.lockInterval,
    maxUpdateBuffer := if p.maxUpdateBuffer = 0 then
      defaultMaxUpdateBuffer else p.maxUpdateBuffer }

/-- Source method checkAndLoadDefault (src/cache_test.go lines 111-131):
an empty redis address is a configuration error; otherwise every zero
option is replaced by its documented default. -/
def checkAndLoadDefault (p : CacheConfig) : Except String CacheConfig :=
  if p.redisAddr = "" then .error ("invalid redis connect addr")
  else .ok (loadDefaults p)

/-- The options redis.NewClient receives. -/
structure RedisOptions where
  addr : String
  password : String
  db : Int
deriving DecidableEq, Repr

/-- The fields of the levelCache struct as New leaves them.  The Bool
fields record that the corresponding reference field was assigned; rdb and
locker carry the client reference, none standing for the go nil zero
value. -/
structure levelCache where
  c : Bool
  loaders : Bool
  cfg : CacheConfig
  version : Bool
  updates : Bool
  stop : Bool
  rdb : Option RedisOptions
  locker : Option RedisOptions
deriving DecidableEq, Repr

/-- Source function New (src/cache_test.go lines 133-156): validate and
default the config; build the instance literal assigning c, loaders, cfg,
version, updates and stop; create the redis client and probe it with Ping,
a probe failure aborting construction; then assign rdb and locker and
return the instance.  The ping oracle models the external connectivity
probe.  The older revisions of New (src/cache.go lines 46-64,
src/unnamed/part_000 lines 70-89) return without ever assigning rdb. -/
def New (ping : RedisOptions → Bool) (cfg : CacheConfig) :
    Except String levelCache :=
  match checkAndLoadDefault cfg with
  | .error e => .error e
  | .ok cfg1 =>
    let lc : levelCache :=
      { c := true, loaders := true, cfg := cfg1, version := true,
        updates := true, stop := true, rdb := none, locker := none }
    let rdb : RedisOptions :=
      { addr := cfg1.redisAddr, password := cfg1.redisPassword,
        db := cfg1.redisDb }
    if ping rdb then .ok { lc with rdb := some rdb, locker := some rdb }
    else .error ("connection failed")

/-- The configuration the tests construct the cache with. -/
def cfgEx : CacheConfig :=
  { redisAddr := "localhost:6379", redisDb := 0, redisPassword := "",
    redisPoolSize := 10, cacheExpiration := 0, cleanupInterval := 0,
    lockInterval := 0, maxUpdateBuffer := 0 }

/-! Helper lemmas about the association-list operations. -/

theorem lookupA_setA_self {β : Type} (m : List (String × β)) (k : String)
    (v : β) : lookupA (setA m k v) k = some v := by
  simp [lookupA, setA]

theorem lookupA_setA_ne {β : Type} (m : List (String × β)) (k k' : String)
    (v : β) (h : k' ≠ k) : lookupA (setA m k v) k' = lookupA m k' := by
  simp [lookupA, setA, List.find?_cons]
  have : (k == k') = false := by
    exact beq_false_of_ne (fun hk => h hk.symm)
  simp [this]

/-- The version check never touches the tiers, the shadow map, the loader
registry, the lock service or the loader counter; it performs exactly one
remote round trip, to the derived version key. -/
theorem checkCacheUpdate_fields {α : Type} (s : CState α) (ns key : String) :
    (checkCacheUpdate s ns key).localT = s.localT ∧
    (checkCacheUpdate s ns key).remote = s.remote ∧
    (checkCacheUpdate s ns key).remoteDown = s.remoteDown ∧
    (checkCacheUpdate s ns key).version = s.version ∧
    (checkCacheUpdate s ns key).loaders = s.loaders ∧
    (checkCacheUpdate s ns key).heldLocks = s.heldLocks ∧
    (checkCacheUpdate s ns key).loaderCalls = s.loaderCalls ∧
    (checkCacheUpdate s ns key).remoteReads
      = s.remoteReads ++ [jointKey [ns, key, "version"]] := by
  unfold checkCacheUpdate
  simp

/-- When no local shadow exists for the entity, the version check enqueues
nothing. -/
theorem checkCacheUpdate_updates_of_no_shadow {α : Type} (s : CState α)
    (ns key : String) (hv : lookupA s.version (jointKey [ns, key]) = none) :
    (checkCacheUpdate s ns key).updates = s.updates := by
  unfold checkCacheUpdate
  simp only [hv]
  repeat' split
  all_goals rfl

/-- A local-tier hit with decodable content returns the decoded value and
leaves the state untouched. -/
theorem get_local_hit_eq {α : Type} (cd : Codec α) (ns key : String)
    (s : CState α) (c : String) (d : α)
    (hl : lookupA s.localT (jointKey [ns, key]) = some c)
    (hdec : cd.dec c = some d) :
    get cd ns s key = (.ok d, s) := by
  unfold get
  simp [hl, hdec]

/-- On a full miss with a registered, succeeding loader, get returns the
loaded value, writes its encoding through to both tiers, seeds the shadow
version at 0, counts one loader invocation and one remote value-key read. -/
theorem get_full_miss_eq {α : Type} (cd : Codec α) (ns key : String)
    (s : CState α) (f : DataLoader α) (d : α)
    (hdown : s.remoteDown = false)
    (hl : lookupA s.localT (jointKey [ns, key]) = none)
    (hr : lookupA s.remote (jointKey [ns, key]) = none)
    (hv : lookupA s.version (jointKey [ns, key]) = none)
    (hf : lookupA s.loaders ns = some f)
    (hfd : f key = .ok d) :
    get cd ns s key =
      (.ok d,
        { s with
            remoteReads := s.remoteReads ++ [jointKey [ns, key]],
            loaderCalls := s.loaderCalls + 1,
            remote := setA s.remote (jointKey [ns, key]) (cd.enc d),
            localT := setA s.localT (jointKey [ns, key]) (cd.enc d),
            version := setA s.version (jointKey [ns, key]) 0 }) := by
  unfold get getLoaderPhase rdbGetRaw rdbSet
  simp [hdown, hl, hr, hv, hf, hfd]

/-- On a full miss whose loader errors, get returns that error unchanged
and mutates neither tier nor the shadow map. -/
theorem get_loader_error_eq {α : Type} (cd : Codec α) (ns key : String)
    (s : CState α) (f : DataLoader α) (e : String)
    (hdown : s.remoteDown = false)
    (hl : lookupA s.localT (jointKey [ns, key]) = none)
    (hr : lookupA s.remote (jointKey [ns, key]) = none)
    (hf : lookupA s.loaders ns = some f)
    (hfe : f key = .error e) :
    get cd ns s key =
      (.error e,
        { s with
            remoteReads := s.remoteReads ++ [jointKey [ns, key]],
            loaderCalls := s.loaderCalls + 1 }) := by
  unfold get getLoaderPhase rdbGetRaw
  simp [hdown, hl, hr, hf, hfe]

/-- The default-filling steps never change the connection options. -/
theorem loadDefaults_preserves_conn (p : CacheConfig) :
    (loadDefaults p).redisAddr = p.redisAddr ∧
    (loadDefaults p).redisPassword = p.redisPassword ∧
    (loadDefaults p).redisDb = p.redisDb := by
  unfold loadDefaults
  simp

/-- Erasing a freshly appended element recovers the original list. -/
theorem erase_append_singleton {a : String} (l : List String) (h : a ∉ l) :
    (l ++ [a]).erase a = l := by
  induction l with
  | nil => simp
  | cons x xs ih =>
    simp only [List.mem_cons, not_or] at h
    obtain ⟨hax, haxs⟩ := h
    simp [List.erase_cons, beq_false_of_ne (fun hx => hax hx.symm), ih haxs]

/-! The claims. -/

/-- Claim C5: for an entity never seen before (no local entry, no remote
entry, no shadow version), a first Get with a registered, succeeding loader
invokes the loader exactly once, leaves both tiers populated with the same
serialized value, and seeds the local shadow version at 0. -/
theorem c5_first_get_loads_once_and_seeds {α : Type} (cd : Codec α)
    (ns key : String) (s : CState α) (f : DataLoader α) (d : α)
    (hdown : s.remoteDown = false)
    (hl : lookupA s.localT (jointKey [ns, key]) = none)
    (hr : lookupA s.remote (jointKey [ns, key]) = none)
    (hv : lookupA s.version (jointKey [ns, key]) = none)
    (hf : lookupA s.loaders ns = some f)
    (hfd : f key = .ok d) :
    (Get cd ns s key).1 = .ok d ∧
    lookupA (Get cd ns s key).2.localT (jointKey [ns, key])
      = some (cd.enc d) ∧
    lookupA (Get cd ns s key).2.remote (jointKey [ns, key])
      = some (cd.enc d) ∧
    lookupA (Get cd ns s key).2.version (jointKey [ns, key]) = some 0 ∧
    (Get cd ns s key).2.loaderCalls = s.loaderCalls + 1 := by
  obtain ⟨h1, h2, h3, h4, h5, h6, h7, h8⟩ := checkCacheUpdate_fields s ns key
  have hl1 : lookupA (checkCacheUpdate s ns key).localT (jointKey [ns, key])
      = none := by rw [h1]; exact hl
  have hr1 : lookupA (checkCacheUpdate s ns key).remote (jointKey [ns, key])
      = none := by rw [h2]; exact hr
  have hd1 : (checkCacheUpdate s ns key).remoteDown = false := by
    rw [h3]; exact hdown
  have hv1 : lookupA (checkCacheUpdate s ns key).version (jointKey [ns, key])
      = none := by rw [h4]; exact hv
  have hf1 : lookupA (checkCacheUpdate s ns key).loaders ns = some f := by
    rw [h5]; exact hf
  have hg := get_full_miss_eq cd ns key (checkCacheUpdate s ns key) f d
    hd1 hl1 hr1 hv1 hf1 hfd
  unfold Get
  rw [hg]
  refine ⟨rfl, ?_, ?_, ?_, ?_⟩
  · exact lookupA_setA_self _ _ _
  · exact lookupA_setA_self _ _ _
  · exact lookupA_setA_self _ _ _
  · show (checkCacheUpdate s ns key).loaderCalls + 1 = s.loaderCalls + 1
    rw [h7]

/-- Claim C5 witness: a first Get of dish 1 on the fresh test cache. -/
theorem c5_first_get_loads_once_and_seeds_witness :
    (Get dishCodec "dish" dishState "1").1 = .ok dish1 ∧
    lookupA (Get dishCodec "dish" dishState "1").2.localT
      (jointKey ["dish", "1"]) = some (dishEnc dish1) ∧
    lookupA (Get dishCodec "dish" dishState "1").2.remote
      (jointKey ["dish", "1"]) = some (dishEnc dish1) ∧
    lookupA (Get dishCodec "dish" dishState "1").2.version
      (jointKey ["dish", "1"]) = some 0 ∧
    (Get dishCodec "dish" dishState "1").2.loaderCalls
      = dishState.loaderCalls + 1 :=
  c5_first_get_loads_once_and_seeds dishCodec "dish" "1" dishState GetDish
    dish1 rfl rfl rfl rfl rfl rfl

/-- Claim C6, corrected part that holds: a Get finding a decodable local
entry is served from the local tier, does not invoke the loader, does not
read the remote value key, and mutates neither tier nor the shadow map; but
it still performs exactly one remote round trip, the version-counter read
of checkCacheUpdate. -/
theorem c6_second_get_local_hit_with_version_roundtrip {α : Type}
    (cd : Codec α) (ns key : String) (s : CState α) (c : String) (d : α)
    (hl : lookupA s.localT (jointKey [ns, key]) = some c)
    (hdec : cd.dec c = some d) :
    (Get cd ns s key).1 = .ok d ∧
    (Get cd ns s key).2.localT = s.localT ∧
    (Get cd ns s key).2.remote = s.remote ∧
    (Get cd ns s key).2.version = s.version ∧
    (Get cd ns s key).2.loaderCalls = s.loaderCalls ∧
    (Get cd ns s key).2.remoteReads
      = s.remoteReads ++ [jointKey [ns, key, "version"]] := by
  obtain ⟨h1, h2, h3, h4, h5, h6, h7, h8⟩ := checkCacheUpdate_fields s ns key
  have hl1 : lookupA (checkCacheUpdate s ns key).localT (jointKey [ns, key])
      = some c := by rw [h1]; exact hl
  have hg := get_local_hit_eq cd ns key (checkCacheUpdate s ns key) c d
    hl1 hdec
  unfold Get
  rw [hg]
  exact ⟨rfl, h1, h2, h4, h7, h8⟩

/-- Claim C6 witness: the second Get of dish 1, right after the successful
first one, is served locally and reads only the version key remotely. -/
theorem c6_second_get_local_hit_with_version_roundtrip_witness :
    (Get dishCodec "dish" loadedState "1").1 = .ok dish1 ∧
    (Get dishCodec "dish" loadedState "1").2.localT = loadedState.localT ∧
    (Get dishCodec "dish" loadedState "1").2.remote = loadedState.remote ∧
    (Get dishCodec "dish" loadedState "1").2.version = loadedState.version ∧
    (Get dishCodec "dish" loadedState "1").2.loaderCalls
      = loadedState.loaderCalls ∧
    (Get dishCodec "dish" loadedState "1").2.remoteReads
      = loadedState.remoteReads ++ [jointKey ["dish", "1", "version"]] :=
  c6_second_get_local_hit_with_version_roundtrip dishCodec "dish" "1"
    loadedState (dishEnc dish1) dish1 (by decide) (by decide)

/-- Claim C6 counterexample: the claim says a second Get performs no
remote-tier round trip of any kind, but the second Get of dish 1 performs
one, the version-counter read; its remote-read trace is the singleton
version key, not the empty trace. -/
theorem c6_second_get_does_roundtrip_cex :
    (Get dishCodec "dish" { loadedState with remoteReads := [] } "1").1
      = .ok dish1 ∧
    (Get dishCodec "dish" { loadedState with remoteReads := [] }
      "1").2.remoteReads = [jointKey ["dish", "1", "version"]] ∧
    (Get dishCodec "dish" { loadedState with remoteReads := [] }
      "1").2.remoteReads ≠ [] :=
  ⟨rfl, rfl, by decide⟩

/-- Claim C9: a loader error during a full-miss Get is returned verbatim to
the caller and neither tier nor the shadow-version map changes. -/
theorem c9_loader_error_propagates_without_mutation {α : Type}
    (cd : Codec α) (ns key : String) (s : CState α) (f : DataLoader α)
    (e : String)
    (hdown : s.remoteDown = false)
    (hl : lookupA s.localT (jointKey [ns, key]) = none)
    (hr : lookupA s.remote (jointKey [ns, key]) = none)
    (hf : lookupA s.loaders ns = some f)
    (hfe : f key = .error e) :
    (Get cd ns s key).1 = .error e ∧
    (Get cd ns s key).2.localT = s.localT ∧
    (Get cd ns s key).2.remote = s.remote ∧
    (Get cd ns s key).2.version = s.version := by
  obtain ⟨h1, h2, h3, h4, h5, h6, h7, h8⟩ := checkCacheUpdate_fields s ns key
  have hl1 : lookupA (checkCacheUpdate s ns key).localT (jointKey [ns, key])
      = none := by rw [h1]; exact hl
  have hr1 : lookupA (checkCacheUpdate s ns key).remote (jointKey [ns, key])
      = none := by rw [h2]; exact hr
  have hd1 : (checkCacheUpdate s ns key).remoteDown = false := by
    rw [h3]; exact hdown
  have hf1 : lookupA (checkCacheUpdate s ns key).loaders ns = some f := by
    rw [h5]; exact hf
  have hg := get_loader_error_eq cd ns key (checkCacheUpdate s ns key) f e
    hd1 hl1 hr1 hf1 hfe
  unfold Get
  rw [hg]
  exact ⟨rfl, h1, h2, h4⟩

/-- Claim C9 witness: GetDish fails for key 3 with the error the source
formats, Get returns it verbatim, and no state changes. -/
theorem c9_loader_error_propagates_without_mutation_witness :
    (Get dishCodec "dish" dishState "3").1
      = .error ("dish [3] not found") ∧
    (Get dishCodec "dish" dishState "3").2.localT = dishState.localT ∧
    (Get dishCodec "dish" dishState "3").2.remote = dishState.remote ∧
    (Get dishCodec "dish" dishState "3").2.version = dishState.version :=
  c9_loader_error_propagates_without_mutation dishCodec "dish" "3"
    dishState GetDish ("dish [3] not found") rfl rfl rfl rfl rfl

/-- Claim C1 (code bug): checkCacheUpdate reads the counter under
join(ns, key, "version") while Refresh increments join("version", ns, key);
the two keys differ, so after a successful Refresh of dish 1 the counter 1
sits under version#$#dish#$#1, the key dish#$#1#$#version stays absent, and
the next version check of Get enqueues nothing — the increment is never
observed. -/
theorem c1_refresh_increment_never_observed :
    jointKey ["dish", "1", "version"]
      ≠ jointKey ["version", jointKey ["dish", "1"]] ∧
    lookupA (Refresh dishCodec loadedState "dish" "1").remote
      (jointKey ["version", jointKey ["dish", "1"]]) = some ("1") ∧
    lookupA (Refresh dishCodec loadedState "dish" "1").remote
      (jointKey ["dish", "1", "version"]) = none ∧
    (checkCacheUpdate (Refresh dishCodec loadedState "dish" "1") "dish"
      "1").updates = (Refresh dishCodec loadedState "dish" "1").updates := by
  refine ⟨by decide, by decide, by decide, ?_⟩
  decide

/-- Claim C2 (code bug): with the local tier empty and the remote tier
holding the serialized dish 1 under the joined value key, Get still invokes
the registered loader — the source falls through to the loader phase after
a remote hit instead of returning. -/
theorem c2_remote_hit_still_invokes_loader :
    lookupA remoteHitState.localT (jointKey ["dish", "1"]) = none ∧
    lookupA remoteHitState.remote (jointKey ["dish", "1"])
      = some (dishEnc dish1) ∧
    remoteHitState.loaderCalls = 0 ∧
    (Get dishCodec "dish" remoteHitState "1").2.loaderCalls = 1 := by
  decide

/-- Claim C4: the invalidation worker reads the data key from the remote
tier — never the loader; on success it sets the shadow version to the
versionNo carried by the notification and overwrites the local entry with
the remote content; if the remote read fails (key absent or remote down)
the notification is dropped and neither the local entry nor the shadow
version changes. -/
theorem c4_parseAndDo_spec {α : Type} (s : CState α) (info : VersionInfo) :
    (s.remoteDown = false →
      ∀ content, lookupA s.remote info.dataKey = some content →
        (parseAndDo s info).1 = .ok () ∧
        lookupA (parseAndDo s info).2.version info.dataKey
          = some info.versionNo ∧
        lookupA (parseAndDo s info).2.localT info.dataKey = some content ∧
        (parseAndDo s info).2.loaderCalls = s.loaderCalls) ∧
    (s.remoteDown = true ∨ lookupA s.remote info.dataKey = none →
        (parseAndDo s info).1 ≠ .ok () ∧
        (parseAndDo s info).2.localT = s.localT ∧
        (parseAndDo s info).2.version = s.version ∧
        (parseAndDo s info).2.loaderCalls = s.loaderCalls) := by
  constructor
  · intro hdown content hc
    unfold parseAndDo rdbGetRaw
    simp [hdown, hc, lookupA_setA_self]
  · intro h
    unfold parseAndDo rdbGetRaw
    rcases h with h | h
    · simp [h]
    · cases hd : s.remoteDown
      · simp [hd, h]
      · simp [hd]

/-- Claim C4 witness: applying the worker once with content present and
once on the fresh state where the key is absent. -/
theorem c4_parseAndDo_spec_witness :
    ((parseAndDo workerState ⟨jointKey ["dish", "1"], 7⟩).1 = .ok () ∧
      lookupA (parseAndDo workerState
        ⟨jointKey ["dish", "1"], 7⟩).2.version (jointKey ["dish", "1"])
        = some 7 ∧
      lookupA (parseAndDo workerState
        ⟨jointKey ["dish", "1"], 7⟩).2.localT (jointKey ["dish", "1"])
        = some ("remote content") ∧
      (parseAndDo workerState ⟨jointKey ["dish", "1"], 7⟩).2.loaderCalls
        = workerState.loaderCalls) ∧
    ((parseAndDo dishState ⟨jointKey ["dish", "1"], 7⟩).1 ≠ .ok () ∧
      (parseAndDo dishState ⟨jointKey ["dish", "1"], 7⟩).2.localT
        = dishState.localT ∧
      (parseAndDo dishState ⟨jointKey ["dish", "1"], 7⟩).2.version
        = dishState.version ∧
      (parseAndDo dishState ⟨jointKey ["dish", "1"], 7⟩).2.loaderCalls
        = dishState.loaderCalls) :=
  ⟨(c4_parseAndDo_spec workerState ⟨jointKey ["dish", "1"], 7⟩).1 rfl
      ("remote content") rfl,
    (c4_parseAndDo_spec dishState ⟨jointKey ["dish", "1"], 7⟩).2
      (Or.inr rfl)⟩

/-- Claim C7: once the lock is obtained, a Refresh whose loader succeeds
writes the new encoding to both tiers, increments the remote counter at the
key it derives, sets the local shadow version to the incremented counter
value, and releases the lock; a Refresh whose loader fails changes neither
tier, no counter and no shadow version, and keeps holding the lock. -/
theorem c7_refresh_success_and_failure {α : Type} (cd : Codec α)
    (s : CState α) (ns key : String) (f : DataLoader α) (n : Int)
    (hf : lookupA s.loaders ns = some f)
    (hdown : s.remoteDown = false)
    (hsep : jointKey ["version", jointKey [ns, key]] ≠ jointKey [ns, key])
    (hlock : jointKey ["lock", jointKey [ns, key]] ∉ s.heldLocks)
    (hn : counterAt s.remote (jointKey ["version", jointKey [ns, key]])
      = some n) :
    (∀ d, f key = .ok d →
      lookupA (Refresh cd s ns key).localT (jointKey [ns, key])
        = some (cd.enc d) ∧
      lookupA (Refresh cd s ns key).remote (jointKey [ns, key])
        = some (cd.enc d) ∧
      lookupA (Refresh cd s ns key).remote
        (jointKey ["version", jointKey [ns, key]])
        = some (toString (n + 1)) ∧
      lookupA (Refresh cd s ns key).version (jointKey [ns, key])
        = some (n + 1) ∧
      (Refresh cd s ns key).heldLocks = s.heldLocks) ∧
    (∀ e, f key = .error e →
      (Refresh cd s ns key).localT = s.localT ∧
      (Refresh cd s ns key).remote = s.remote ∧
      (Refresh cd s ns key).version = s.version ∧
      (Refresh cd s ns key).heldLocks
        = s.heldLocks ++ [jointKey ["lock", jointKey [ns, key]]]) := by
  constructor
  · intro d hd
    unfold Refresh rdbSet rdbIncr counterAt at *
    cases hv : lookupA s.remote (jointKey ["version", jointKey [ns, key]])
    · rw [hv] at hn
      have hn0 : n = 0 := by
        simpa using hn.symm
      subst hn0
      simp [hf, hd, hdown, hv, lookupA_setA_self,
        lookupA_setA_ne _ _ _ _ hsep,
        lookupA_setA_ne _ _ _ _ (Ne.symm hsep),
        erase_append_singleton _ hlock]
    · rename_i c
      rw [hv] at hn
      simp only at hn
      simp [hf, hd, hdown, hv, hn, lookupA_setA_self,
        lookupA_setA_ne _ _ _ _ hsep,
        lookupA_setA_ne _ _ _ _ (Ne.symm hsep),
        erase_append_singleton _ hlock]
  · intro e he
    unfold Refresh
    simp [hf, he]

/-- Claim C7 witness: on the fresh test cache, a Refresh of dish 1
succeeds end to end and a Refresh of dish 3 aborts after the loader error
with the lock still held. -/
theorem c7_refresh_success_and_failure_witness :
    (lookupA (Refresh dishCodec dishState "dish" "1").localT
        (jointKey ["dish", "1"]) = some (dishEnc dish1) ∧
      lookupA (Refresh dishCodec dishState "dish" "1").remote
        (jointKey ["dish", "1"]) = some (dishEnc dish1) ∧
      lookupA (Refresh dishCodec dishState "dish" "1").remote
        (jointKey ["version", jointKey ["dish", "1"]])
        = some (toString ((0 : Int) + 1)) ∧
      lookupA (Refresh dishCodec dishState "dish" "1").version
        (jointKey ["dish", "1"]) = some ((0 : Int) + 1) ∧
      (Refresh dishCodec dishState "dish" "1").heldLocks
        = dishState.heldLocks) ∧
    ((Refresh dishCodec dishState "dish" "3").localT = dishState.localT ∧
      (Refresh dishCodec dishState "dish" "3").remote = dishState.remote ∧
      (Refresh dishCodec dishState "dish" "3").version
        = dishState.version ∧
      (Refresh dishCodec dishState "dish" "3").heldLocks
        = dishState.heldLocks
          ++ [jointKey ["lock", jointKey ["dish", "3"]]]) :=
  ⟨(c7_refresh_success_and_failure dishCodec dishState "dish" "1" GetDish
      0 rfl rfl (by decide) (by decide) rfl).1 dish1 rfl,
    (c7_refresh_success_and_failure dishCodec dishState "dish" "3" GetDish
      0 rfl rfl (by decide) (by decide) rfl).2
      ("dish [3] not found") rfl⟩

/-- Claim C8 counterexample: right after the successful Refresh of dish 1
from the loaded state, the local shadow version is 1 while the version key
checkCacheUpdate reads, dish#$#1#$#version, is absent (counter 0), and no
PendingInvalidation is in flight — the shadow exceeds the checked counter
with an empty queue, contradicting the claimed invariant. -/
theorem c8_shadow_diverges_without_pending_cex :
    lookupA (Refresh dishCodec loadedState "dish" "1").version
      (jointKey ["dish", "1"]) = some 1 ∧
    lookupA (Refresh dishCodec loadedState "dish" "1").remote
      (jointKey ["dish", "1", "version"]) = none ∧
    (Refresh dishCodec loadedState "dish" "1").updates = [] := by
  decide

/-- Claim C8, amended part that holds: a successful Refresh leaves the
local shadow version equal to the new value of the counter at the key it
increments, join of "version" and the entity key. -/
theorem c8_refresh_shadow_tracks_incremented_counter {α : Type}
    (cd : Codec α) (s : CState α) (ns key : String) (f : DataLoader α)
    (d : α) (n : Int)
    (hf : lookupA s.loaders ns = some f)
    (hfd : f key = .ok d)
    (hdown : s.remoteDown = false)
    (hsep : jointKey ["version", jointKey [ns, key]] ≠ jointKey [ns, key])
    (hn : counterAt s.remote (jointKey ["version", jointKey [ns, key]])
      = some n) :
    lookupA (Refresh cd s ns key).version (jointKey [ns, key])
      = some (n + 1) ∧
    lookupA (Refresh cd s ns key).remote
      (jointKey ["version", jointKey [ns, key]])
      = some (toString (n + 1)) := by
  unfold Refresh rdbSet rdbIncr counterAt at *
  cases hv : lookupA s.remote (jointKey ["version", jointKey [ns, key]])
  · rw [hv] at hn
    have hn0 : n = 0 := by simpa using hn.symm
    subst hn0
    simp [hf, hfd, hdown, hv, lookupA_setA_self,
      lookupA_setA_ne _ _ _ _ hsep, lookupA_setA_ne _ _ _ _ (Ne.symm hsep)]
  · rename_i c
    rw [hv] at hn
    simp only at hn
    simp [hf, hfd, hdown, hv, hn, lookupA_setA_self,
      lookupA_setA_ne _ _ _ _ hsep, lookupA_setA_ne _ _ _ _ (Ne.symm hsep)]

/-- Claim C8 amended-part witness: Refresh of dish 1 on the fresh cache
leaves shadow and incremented counter both at 1. -/
theorem c8_refresh_shadow_tracks_incremented_counter_witness :
    lookupA (Refresh dishCodec dishState "dish" "1").version
      (jointKey ["dish", "1"]) = some ((0 : Int) + 1) ∧
    lookupA (Refresh dishCodec dishState "dish" "1").remote
      (jointKey ["version", jointKey ["dish", "1"]])
      = some (toString ((0 : Int) + 1)) :=
  c8_refresh_shadow_tracks_incremented_counter dishCodec dishState "dish"
    "1" GetDish dish1 0 rfl rfl rfl (by decide) rfl

/-- Claim C10: registering a loader for a namespace already bound fails
with the existed error and leaves the registry untouched; registering a
fresh namespace succeeds and binds the given loader. -/
theorem c10_register_loader_duplicate_check {α : Type} (s : CState α)
    (ns : String) (g : DataLoader α) :
    (∀ f, lookupA s.loaders ns = some f →
      RegisterLoader s ns g
        = (.error ("data loader [" ++ ns ++ "] existed"), s) ∧
      lookupA (RegisterLoader s ns g).2.loaders ns = some f) ∧
    (lookupA s.loaders ns = none →
      (RegisterLoader s ns g).1 = .ok () ∧
      lookupA (RegisterLoader s ns g).2.loaders ns = some g) := by
  constructor
  · intro f hf
    unfold RegisterLoader
    simp [hf]
  · intro h
    unfold RegisterLoader
    simp [h, lookupA_setA_self]

/-- Claim C10 witness: re-registering the dish namespace fails and leaves
GetDish bound; registering a fresh namespace succeeds. -/
theorem c10_register_loader_duplicate_check_witness :
    (RegisterLoader dishState "dish" GetDish
      = (.error ("data loader [dish] existed"), dishState) ∧
      lookupA (RegisterLoader dishState "dish" GetDish).2.loaders "dish"
        = some GetDish) ∧
    ((RegisterLoader dishState "fruit" GetDish).1 = .ok () ∧
      lookupA (RegisterLoader dishState "fruit" GetDish).2.loaders "fruit"
        = some GetDish) :=
  ⟨(c10_register_loader_duplicate_check dishState "dish" GetDish).1
      GetDish rfl,
    (c10_register_loader_duplicate_check dishState "fruit" GetDish).2 rfl⟩

/-- Claim C3: for every configuration New accepts (non-empty address,
successful connectivity probe), the returned instance has every field Get,
Refresh and Start use assigned — in particular rdb holds the probed client
and locker is set — so a first Get or Refresh never finds them unset.
The older revisions of New in src/cache.go and src/unnamed/part_000 never
assign rdb; the revision modelled here, src/cache_test.go lines 133-156,
does. -/
theorem c3_new_initializes_used_fields (ping : RedisOptions → Bool)
    (cfg : CacheConfig) (haddr : ¬ cfg.redisAddr = "")
    (hping : ping ⟨cfg.redisAddr, cfg.redisPassword, cfg.redisDb⟩ = true) :
    ∃ lc, New ping cfg = .ok lc ∧
      lc.rdb = some ⟨cfg.redisAddr, cfg.redisPassword, cfg.redisDb⟩ ∧
      lc.locker = some ⟨cfg.redisAddr, cfg.redisPassword, cfg.redisDb⟩ ∧
      lc.c = true ∧ lc.loaders = true ∧ lc.version = true ∧
      lc.updates = true ∧ lc.stop = true := by
  obtain ⟨ha, hp, hd⟩ := loadDefaults_preserves_conn cfg
  unfold New checkAndLoadDefault
  rw [if_neg haddr]
  simp only [ha, hp, hd]
  rw [hping]
  simp

/-- Claim C3 witness: constructing with the test configuration and a
succeeding probe yields a fully initialized instance. -/
theorem c3_new_initializes_used_fields_witness :
    ∃ lc, New (fun _ => true) cfgEx = .ok lc ∧
      lc.rdb = some ⟨cfgEx.redisAddr, cfgEx.redisPassword, cfgEx.redisDb⟩ ∧
      lc.locker
        = some ⟨cfgEx.redisAddr, cfgEx.redisPassword, cfgEx.redisDb⟩ ∧
      lc.c = true ∧ lc.loaders = true ∧ lc.version = true ∧
      lc.updates = true ∧ lc.stop = true :=
  c3_new_initializes_used_fields (fun _ => true) cfgEx (by decide) rfl

end LevelCache
